import Mathlib

/-!
Verification development for the family-stewardship dashboard (src/app.py).

The Python source is shallowly embedded: spreadsheet cells are `Value`s
(a Python number, string, or None), machine floats are modelled as exact
rationals (`ℚ`), pandas data frames are lists of rows, and the Python
dict returned by `compute_totals` is an association list that keeps
insertion order.  Each definition carries a comment pointing to the
source lines it embeds.
-/

namespace Stewardship

/-- The value of a spreadsheet cell / Python scalar reaching the helpers of
app.py: a number (modelled as an exact rational), a string, or None. -/
inductive Value where
  | VNum (q : ℚ)
  | VStr (s : String)
  | VNone
deriving DecidableEq

open Value

/-- Numeric value of a list of decimal digit characters (most significant
first), as accumulated by a decimal-literal parser. -/
def dts (l : List Char) : ℕ :=
  l.foldl (fun a c => 10 * a + (c.toNat - 48)) 0

/-- Leading and trailing whitespace removed from a character list; models the
whitespace stripping performed both by `str.strip()` (app.py line 130) and by
Python's `float` constructor itself. -/
def stripWS (cs : List Char) : List Char :=
  ((cs.dropWhile Char.isWhitespace).reverse.dropWhile Char.isWhitespace).reverse

/-- Syntactic scan of a decimal float literal, following the grammar accepted
by CPython's `float` constructor on finite decimal inputs:
optional sign, integer digits and/or a fractional part, optional exponent.
Returns `(negative, integer digits, fraction digits, exponent negative,
exponent digits)` on success.  The `inf`/`nan` words and digit-group
underscores accepted by CPython are not modelled; no input of the program
or the specification uses them. -/
def scanFloat (cs : List Char) : Option (Bool × List Char × List Char × Bool × List Char) :=
  let signSplit : Bool × List Char :=
    match cs with
    | '+' :: t => (false, t)
    | '-' :: t => (true, t)
    | _ => (false, cs)
  let neg := signSplit.1
  let cs1 := signSplit.2
  let ip := cs1.takeWhile Char.isDigit
  let cs2 := cs1.dropWhile Char.isDigit
  let fracSplit : List Char × List Char :=
    match cs2 with
    | '.' :: t => (t.takeWhile Char.isDigit, t.dropWhile Char.isDigit)
    | _ => ([], cs2)
  let fp := fracSplit.1
  let cs3 := fracSplit.2
  if ip.isEmpty && fp.isEmpty then none
  else
    match cs3 with
    | [] => some (neg, ip, fp, false, [])
    | e :: t =>
      if e == 'e' || e == 'E' then
        let esignSplit : Bool × List Char :=
          match t with
          | '+' :: u => (false, u)
          | '-' :: u => (true, u)
          | _ => (false, t)
        let eneg := esignSplit.1
        let t1 := esignSplit.2
        let ed := t1.takeWhile Char.isDigit
        let t2 := t1.dropWhile Char.isDigit
        if ed.isEmpty || !t2.isEmpty then none
        else some (neg, ip, fp, eneg, ed)
      else none

/-- Exact rational denoted by a scanned float literal. -/
def synRat (f : Bool × List Char × List Char × Bool × List Char) : ℚ :=
  let mant : ℚ := (dts f.2.1 : ℚ) + (dts f.2.2.1 : ℚ) / (10 : ℚ) ^ (f.2.2.1).length
  let ex : ℤ := if f.2.2.2.1 then -(dts f.2.2.2.2 : ℤ) else (dts f.2.2.2.2 : ℤ)
  (if f.1 then -mant else mant) * (10 : ℚ) ^ ex

/-- Python's `float(s)` on a string, modelled as the exact rational denoted by
the literal, or `none` when `float` would raise `ValueError`. -/
def pyFloatChars (cs : List Char) : Option ℚ :=
  (scanFloat (stripWS cs)).map synRat

/-- The body of the `try` block of `to_float` (app.py lines 128-131) as a
partial function: for a string the `$` and `,` characters are removed
(`str.replace`, line 130) and the result is handed to `float`; `float` of a
number returns it and `float(None)` raises, giving `none`. -/
def to_float_core (x : Value) : Option ℚ :=
  match x with
  | VNum q => some q
  | VNone => none
  | VStr s => pyFloatChars (s.data.filter (fun c => c != '$' && c != ','))

/-- Embeds `to_float` (app.py lines 127-133): the `try` body when it succeeds,
and the `except` handler's `0.0` when it raises. -/
def to_float (x : Value) : ℚ :=
  (to_float_core x).getD 0

/-- The ten fixed budget categories in canonical order (app.py lines 38-49). -/
def CATEGORIES_ORDERED : List String :=
  ["Tithe",
   "Rental Reserve",
   "Savings (Emergency)",
   "Food",
   "Transportation",
   "Insurance/Health",
   "Child",
   "Debt",
   "Clothing/Personal",
   "Subscriptions/Misc"]

/-- A row of the Budgets data frame: the Category cell plus the eight check
cells and the Monthly_Target cell (header at app.py lines 82-85). -/
structure BudgetRow where
  category : String
  check1Temp : Value
  check2Temp : Value
  check3Temp : Value
  check4Temp : Value
  check1Post : Value
  check2Post : Value
  check3Post : Value
  check4Post : Value
  monthlyTarget : Value
deriving DecidableEq

/-- Column access on a budget row by header name, as pandas column selection
`row[mode_cols]` does in `compute_totals` (app.py line 142). -/
def BudgetRow.getCell (r : BudgetRow) (c : String) : Value :=
  match c with
  | "Category" => VStr r.category
  | "Check1_Temp" => r.check1Temp
  | "Check2_Temp" => r.check2Temp
  | "Check3_Temp" => r.check3Temp
  | "Check4_Temp" => r.check4Temp
  | "Check1_Post" => r.check1Post
  | "Check2_Post" => r.check2Post
  | "Check3_Post" => r.check3Post
  | "Check4_Post" => r.check4Post
  | "Monthly_Target" => r.monthlyTarget
  | _ => VNone

/-- The four Temporary check columns (app.py lines 214 and 247). -/
def temp_cols : List String :=
  ["Check1_Temp", "Check2_Temp", "Check3_Temp", "Check4_Temp"]

/-- The four Post-Rental check columns (app.py line 248). -/
def post_cols : List String :=
  ["Check1_Post", "Check2_Post", "Check3_Post", "Check4_Post"]

/-- Mode-dependent column choice of `dashboard_view` (app.py line 249):
`cols = temp_cols if mode == "Temporary" else post_cols`. -/
def select_mode_cols (mode : String) : List String :=
  if mode == "Temporary" then temp_cols else post_cols

/-- One loop iteration of `compute_totals` (app.py lines 137-142): the rows
whose Category equals `cat` are selected; if there are none the total is 0.0,
otherwise `row[mode_cols].applymap(to_float).sum(axis=1).values[0]` takes the
normalized row sums and reads entry 0, i.e. the sum over the selected columns
of the first matching row. -/
def cat_total (df : List BudgetRow) (mode_cols : List String) (cat : String) : ℚ :=
  match df.filter (fun r => r.category == cat) with
  | [] => 0
  | r :: _ => (mode_cols.map (fun c => to_float (r.getCell c))).sum

/-- Embeds `compute_totals` (app.py lines 135-143): a Python dict built by
inserting each fixed category in order, modelled as an association list. -/
def compute_totals (df : List BudgetRow) (mode_cols : List String) : List (String × ℚ) :=
  CATEGORIES_ORDERED.map (fun cat => (cat, cat_total df mode_cols cat))

/-- Embeds `totals.get("Tithe", 0.0)` (app.py line 254). -/
def tithe_total (totals : List (String × ℚ)) : ℚ :=
  (totals.lookup "Tithe").getD 0

/-- Embeds `totals.get("Rental Reserve", 0.0)` (app.py line 255). -/
def rental_total (totals : List (String × ℚ)) : ℚ :=
  (totals.lookup "Rental Reserve").getD 0

/-- Embeds `totals.get("Savings (Emergency)", 0.0)` (app.py line 256). -/
def savings_total (totals : List (String × ℚ)) : ℚ :=
  (totals.lookup "Savings (Emergency)").getD 0

/-- Embeds `sum(v for k,v in totals.items() if k not in ["Tithe","Rental
Reserve","Savings (Emergency)"])` (app.py line 257). -/
def living_total (totals : List (String × ℚ)) : ℚ :=
  ((totals.filter
      (fun p => !(["Tithe", "Rental Reserve", "Savings (Emergency)"].contains p.1))).map
    Prod.snd).sum

/-- Sum of all category totals of a rollup mapping,
`sum(all_category_totals)` in the specification's partition invariant. -/
def totals_sum (totals : List (String × ℚ)) : ℚ :=
  (totals.map Prod.snd).sum

/-- A worksheet's cell grid as returned by `get_all_values`: the header row
(when present) followed by the data rows. -/
def Table := List (List Value)

/-- Range update `ws.update` anchored at row `start+1` (0-based `start`):
the written rows replace the corresponding stretch of the grid. -/
def updateRange (vals : List (List Value)) (start : ℕ) (rows : List (List Value)) :
    List (List Value) :=
  vals.take start ++ rows ++ vals.drop (start + rows.length)

/-- The seed rows written on first creation of the Budgets table (app.py
lines 99-101): `[cat, 0,0,0,0, 0,0,0,0, ""]` for each fixed category. -/
def budget_seed_rows : List (List Value) :=
  CATEGORIES_ORDERED.map (fun cat =>
    [VStr cat, VNum 0, VNum 0, VNum 0, VNum 0, VNum 0, VNum 0, VNum 0, VNum 0, VStr ""])

/-- Embeds the Budgets seeding step of `init_sheets` (app.py lines 96-102):
when `get_all_values` has at most the header row, the seed rows are written
to `A2:J11`; otherwise nothing is written. -/
def seed_budgets (vals : List (List Value)) : List (List Value) :=
  if vals.length ≤ 1 then updateRange vals 1 budget_seed_rows else vals

/-- The default key/value pairs written on first creation of the settings
table (app.py lines 107-116), with `DEFAULT_RENTAL_MONTHLY = 2500.00`,
`DEFAULT_TITHE_PCT = 10.0` and `DEFAULT_SAVINGS_PCT = 10.0`
(app.py lines 26-28). -/
def dash_seed_rows : List (List Value) :=
  [[VStr "Monthly_Income", VNum 0],
   [VStr "Rental_Monthly", VNum 2500],
   [VStr "Tithe_Pct", VNum 10],
   [VStr "Savings_Pct", VNum 10],
   [VStr "Emergency_Target_Months", VNum 3],
   [VStr "Emergency_Current", VNum 0],
   [VStr "Mode", VStr "Temporary"],
   [VStr "Verse_Index", VNum 0]]

/-- Embeds the Dashboard_Data seeding step of `init_sheets` (app.py lines
104-116). -/
def seed_dash (vals : List (List Value)) : List (List Value) :=
  if vals.length ≤ 1 then updateRange vals 1 dash_seed_rows else vals

/-- Header row of the Budgets table (app.py lines 82-85). -/
def budget_headers : List Value :=
  ["Category",
   "Check1_Temp", "Check2_Temp", "Check3_Temp", "Check4_Temp",
   "Check1_Post", "Check2_Post", "Check3_Post", "Check4_Post",
   "Monthly_Target"].map VStr

/-- Header row of the Daily_Spending table (app.py line 89). -/
def daily_headers : List Value :=
  ["Date", "Category", "Amount", "Memo"].map VStr

/-- Header row of the Dashboard_Data table (app.py line 93). -/
def dash_headers : List Value :=
  ["Key", "Value"].map VStr

/-- Modelled from the spec: `open_or_create_worksheet` is called by
`init_sheets` (app.py lines 86, 90, 94) but its definition is not part of the
repository.  Per spec sections 4.1 and 6 it returns a handle to an existing
table with the given name — tolerating whatever rows it already has — or
creates one holding exactly the header row when the name is absent.  The
spreadsheet file is modelled as an association list of named tables. -/
def open_or_create_worksheet (sh : List (String × List (List Value))) (name : String)
    (header : List Value) : List (List Value) × List (String × List (List Value)) :=
  match sh.lookup name with
  | some t => (t, sh)
  | none => ([header], sh ++ [(name, [header])])

/-- Embeds `init_sheets` (app.py lines 78-118): the three tables are opened
or created with their headers, then Budgets and Dashboard_Data are seeded
when empty.  The result is the final contents of the three tables. -/
def init_sheets (sh : List (String × List (List Value))) :
    List (List Value) × List (List Value) × List (List Value) :=
  let b := open_or_create_worksheet sh "Budgets" budget_headers
  let d := open_or_create_worksheet b.2 "Daily_Spending" daily_headers
  let k := open_or_create_worksheet d.2 "Dashboard_Data" dash_headers
  (seed_budgets b.1, d.1, seed_dash k.1)

/-- A row of the Daily_Spending data frame; `get_all_values` yields every
cell as text, so all four fields are strings (header at app.py line 89). -/
structure Txn where
  date : String
  category : String
  amount : String
  memo : String
deriving DecidableEq

/-- True for leap years, per the Gregorian calendar validation performed by
`pd.to_datetime`. -/
def isLeap (y : ℕ) : Bool :=
  y % 4 == 0 && (y % 100 != 0 || y % 400 == 0)

/-- Number of days of month `m` of year `y`. -/
def daysInMonth (y m : ℕ) : ℕ :=
  if m == 2 then (if isLeap y then 29 else 28)
  else if m == 4 || m == 6 || m == 9 || m == 11 then 30
  else 31

/-- Models `pd.to_datetime(.., errors="coerce")` followed by `.dt.date` on
the Date column (app.py line 201), for the ISO `YYYY-MM-DD` form in which the
add-transaction form stores dates (`str(date)`, app.py line 191): a valid
calendar date becomes the order-preserving code `y*10000 + m*100 + d`,
anything else becomes `none` (pandas `NaT`). -/
def parseDate (s : String) : Option ℕ :=
  match s.data with
  | [y1, y2, y3, y4, '-', m1, m2, '-', d1, d2] =>
    if (y1.isDigit && y2.isDigit && y3.isDigit && y4.isDigit &&
        m1.isDigit && m2.isDigit && d1.isDigit && d2.isDigit) then
      let y := dts [y1, y2, y3, y4]
      let m := dts [m1, m2]
      let d := dts [d1, d2]
      if 1 ≤ m && m ≤ 12 && 1 ≤ d && d ≤ daysInMonth y m then
        some (y * 10000 + m * 100 + d)
      else none
    else none
  | _ => none

/-- Embeds the filter block of `render_daily_spending` (app.py lines
200-206): the start-date filter, then the end-date filter (`NaT` compares
false against any date, so unparseable dates fail both), then the category
filter applied only when the selection is not "All". -/
def filter_txns (rows : List Txn) (startDate endDate : Option ℕ) (categoryFilter : String) :
    List Txn :=
  let r1 :=
    match startDate with
    | some sd => rows.filter (fun t =>
        match parseDate t.date with
        | some d => sd ≤ d
        | none => false)
    | none => rows
  let r2 :=
    match endDate with
    | some ed => r1.filter (fun t =>
        match parseDate t.date with
        | some d => d ≤ ed
        | none => false)
    | none => r1
  if categoryFilter != "All" then r2.filter (fun t => t.category == categoryFilter) else r2

/-- Stated from the specification's words for the filtering claim: a row
matches the date range when its parsed date satisfies each bound that is
present; a row whose date cannot be parsed matches no finite range (it only
passes when neither bound is present). -/
def matchesRange (startDate endDate : Option ℕ) (t : Txn) : Bool :=
  match parseDate t.date with
  | some d =>
    (match startDate with | some sd => sd ≤ d | none => true) &&
    (match endDate with | some ed => d ≤ ed | none => true)
  | none => startDate.isNone && endDate.isNone

/-- Stated from the specification's words: a row matches the category filter
when no filter is given ("All") or its category equals the filter value. -/
def matchesCategory (categoryFilter : String) (t : Txn) : Bool :=
  categoryFilter == "All" || t.category == categoryFilter

/-- Embeds `df.groupby("Category")["Amount"].sum()` of `render_daily_spending`
(app.py line 212) for one category.  The Amount column still holds the raw
text cells of `get_all_values` at this point (no `to_float` was applied), so
pandas reduces the object-dtype group with `+`, which on Python strings is
concatenation of the cell texts in row order. -/
def ledger_cat_total (rows : List Txn) (cat : String) : String :=
  ((rows.filter (fun t => t.category == cat)).map Txn.amount).foldl (fun a b => a ++ b) ""

/-- Embeds the transaction aggregation of `dashboard_view` (app.py lines
291-292) for one category: the Amount column is first normalized with
`to_float`, then grouped by Category and summed. -/
def dashboard_cat_total (rows : List Txn) (cat : String) : ℚ :=
  ((rows.filter (fun t => t.category == cat)).map (fun t => to_float (VStr t.amount))).sum

/-- The fixed scripture list (app.py lines 30-36); punctuation is normalized
to ASCII, which leaves every claim-relevant property (the pairs and the
length) intact. -/
def SCRIPTURE : List (String × String) :=
  [("Malachi 3:10",
    "Bring the whole tithe into the storehouse... 'Test me in this,' says the LORD Almighty."),
   ("Proverbs 21:20",
    "The wise store up choice food and olive oil, but fools gulp theirs down."),
   ("Luke 14:28",
    "Suppose one of you wants to build a tower. Won't you first sit down and estimate the cost?"),
   ("2 Corinthians 9:7",
    "God loves a cheerful giver."),
   ("Philippians 4:11-12",
    "I have learned to be content whatever the circumstances...")]

/-- Python's `int()` applied to a float value: truncation toward zero,
expressed on the exact rational model. -/
def truncToInt (q : ℚ) : ℤ :=
  if 0 ≤ q.num then ((q.num.natAbs / q.den : ℕ) : ℤ) else -(((q.num.natAbs / q.den : ℕ) : ℤ))

/-- Embeds the index extraction of `verse_header` (app.py lines 153-157):
the stored Verse_Index setting (`none` when the key or its row is missing)
is parsed with `int(float(...))`; any failure inside the `try` block leaves
the default 0. -/
def parse_verse_index (raw : Option String) : ℤ :=
  match raw with
  | none => 0
  | some s =>
    match pyFloatChars s.data with
    | some q => truncToInt q
    | none => 0

/-- Embeds `idx = idx % len(SCRIPTURE)` (app.py line 158); Python's `%` with
a positive modulus is Euclidean remainder, `Int.emod`. -/
def verse_pos (raw : Option String) : ℤ :=
  Int.emod (parse_verse_index raw) SCRIPTURE.length

/-- Embeds the "New verse" branch (app.py lines 161-165): the value written
back to the sheet is exactly the result of `random.randint(0,
len(SCRIPTURE)-1)`, taken here as the parameter `draw`. -/
def verse_next_index (draw : ℕ) : ℕ :=
  draw

/-- Budget table with a single Food row mixing numeric and currency-formatted
cells, used to witness the rollup claims. -/
def exBudget : List BudgetRow :=
  [⟨"Food", VStr "$1,200.00", VNum 100, VStr "34.56", VNum 0,
    VNum 0, VNum 0, VNum 0, VNum 0, VStr ""⟩]

/-- A budget row whose category is not one of the ten fixed labels. -/
def exOtherRow : BudgetRow :=
  ⟨"Pets", VNum 1, VNum 2, VNum 3, VNum 4, VNum 0, VNum 0, VNum 0, VNum 0, VStr ""⟩

/-- A second Food row, used to witness the first-matching-row semantics. -/
def exDupRow : BudgetRow :=
  ⟨"Food", VNum 999, VNum 999, VNum 999, VNum 999, VNum 0, VNum 0, VNum 0, VNum 0, VStr ""⟩

/-- The three transactions of the specification's filtering example. -/
def exTxn1 : Txn := ⟨"2024-01-05", "Food", "12.5", ""⟩

/-- Second example transaction. -/
def exTxn2 : Txn := ⟨"2024-01-20", "Transportation", "40", ""⟩

/-- Third example transaction, outside the example date range. -/
def exTxn3 : Txn := ⟨"2024-02-01", "Food", "3", ""⟩

/-- The example transaction log. -/
def exTxns : List Txn := [exTxn1, exTxn2, exTxn3]

/-- Two Food transactions whose raw amount cells are "12.5" and "3". -/
def exTxns7 : List Txn :=
  [⟨"2024-01-05", "Food", "12.5", ""⟩, ⟨"2024-01-06", "Food", "3", ""⟩]

/-- A pre-existing Budgets table with extra rows beyond the header. -/
def exTable : List (List Value) :=
  [budget_headers, [VStr "Tithe", VNum 1], [VStr "Food", VNum 2]]

/-- Evaluation helper: `to_float` on a string whose cleaned form scans to a
given literal is the rational denoted by that literal. -/
lemma to_float_VStr_eq (s : String) (t : Bool × List Char × List Char × Bool × List Char)
    (hscan : scanFloat (stripWS (s.data.filter (fun c => c != '$' && c != ','))) = some t) :
    to_float (VStr s) = synRat t := by
  simp only [to_float, to_float_core, pyFloatChars, hscan, Option.map_some', Option.getD_some]

/-- The first element of a filtered list is the first element satisfying the
predicate. -/
lemma head_filter_eq_find (p : α → Bool) (l : List α) :
    (l.filter p).head? = l.find? p := by
  induction l with
  | nil => simp
  | cons a t ih =>
    by_cases h : p a
    · simp [List.filter_cons, List.find?_cons, h]
    · simp [List.filter_cons, List.find?_cons, h, ih]

/-- The per-category total of `compute_totals` restated through `find?`: it is
the normalized sum over the selected columns of the first row carrying the
category, and 0 when no row does. -/
lemma cat_total_eq_find (df : List BudgetRow) (cols : List String) (cat : String) :
    cat_total df cols cat =
      (match df.find? (fun r => r.category == cat) with
       | none => 0
       | some r => ((cols.map (fun c => to_float (r.getCell c))).sum)) := by
  rw [cat_total, ← head_filter_eq_find]
  rcases h : df.filter (fun r => r.category == cat) with _ | ⟨r, t⟩ <;> simp [h]

/-- A row of a budget table appended after a row with the same category never
changes a per-category total: only the first matching row is read. -/
lemma cat_total_append_dup (df : List BudgetRow) (r : BudgetRow) (cols : List String)
    (cat : String) (h : ∃ r' ∈ df, r'.category = r.category) :
    cat_total (df ++ [r]) cols cat = cat_total df cols cat := by
  by_cases hcat : (r.category == cat) = true
  · obtain ⟨r', hmem, hrc⟩ := h
    have hmem' : r' ∈ df.filter (fun x => x.category == cat) :=
      List.mem_filter.2 ⟨hmem, by rw [hrc]; exact hcat⟩
    rcases heq : df.filter (fun x => x.category == cat) with _ | ⟨a, tl⟩
    · rw [heq] at hmem'; cases hmem'
    · simp [cat_total, List.filter_append, heq]
  · have hb : (r.category == cat) = false := by revert hcat; cases r.category == cat <;> simp
    simp [cat_total, List.filter_append, List.filter_cons, hb]

/-- A row carrying a category different from `cat` never contributes to the
total of `cat`. -/
lemma cat_total_skip_row (df₁ df₂ : List BudgetRow) (r : BudgetRow) (cols : List String)
    (cat : String) (h : r.category ≠ cat) :
    cat_total (df₁ ++ r :: df₂) cols cat = cat_total (df₁ ++ df₂) cols cat := by
  have hb : (r.category == cat) = false := by simpa using h
  simp [cat_total, List.filter_append, List.filter_cons, hb]

/-- C1: currency normalization (`to_float`) returns the numeric value of a
number or of a currency-formatted string (with "$" and thousands separators
removed), and returns 0.0 for any input that cannot be parsed; in particular
`to_float("$1,234.56") = 1234.56`, `to_float("abc") = 0.0`, and `to_float` of
a None-like or empty input is 0.0. -/
theorem to_float_currency_normalization :
    to_float (VStr "$1,234.56") = 1234.56 ∧
    to_float (VStr "abc") = 0 ∧
    to_float VNone = 0 ∧
    to_float (VStr "") = 0 ∧
    (∀ q : ℚ, to_float (VNum q) = q) ∧
    (∀ s : String, to_float_core (VStr s) = none → to_float (VStr s) = 0) := by
  refine ⟨?_, by decide, rfl, by decide, fun q => rfl, fun s h => by simp [to_float, h]⟩
  have h := to_float_VStr_eq "$1,234.56" (false, "1234".data, "56".data, false, []) (by decide)
  rw [h]
  have h0 : dts ([] : List Char) = 0 := by decide
  have h1 : dts "1234".data = 1234 := by decide
  have h2 : dts "56".data = 56 := by decide
  have h3 : ("56".data).length = 2 := by decide
  simp [synRat, h0, h1, h2, h3]
  norm_num

/-- Witness for C1: a concrete string that cannot be parsed satisfies the
hypothesis of the last conjunct and is normalized to zero. -/
theorem to_float_currency_normalization_witness :
    to_float (VStr "zzz") = 0 :=
  to_float_currency_normalization.2.2.2.2.2 "zzz" (by decide)

/-- C2: for every budget table and the mode-selected check columns,
`compute_totals` maps each of the 10 fixed categories to the sum of its
normalized cell values across the selected columns of its first matching row,
and maps every category absent from the table to 0.0. -/
theorem compute_totals_mode_rollup (df : List BudgetRow) (mode : String) (cat : String)
    (h : cat ∈ CATEGORIES_ORDERED) :
    (compute_totals df (select_mode_cols mode)).lookup cat =
      some (match df.find? (fun r => r.category == cat) with
            | none => 0
            | some r => (((select_mode_cols mode).map (fun c => to_float (r.getCell c))).sum)) := by
  rw [← cat_total_eq_find]
  fin_cases h <;> simp [compute_totals, CATEGORIES_ORDERED, List.lookup]

/-- Witness for C2: a table whose Food row mixes numeric and
currency-formatted cells rolls up, in Temporary mode, to the normalized sum
1200 + 100 + 34.56 + 0 = 1334.56, and an absent category rolls up to zero. -/
theorem compute_totals_mode_rollup_witness :
    (compute_totals exBudget (select_mode_cols "Temporary")).lookup "Food" = some 1334.56 ∧
    (compute_totals exBudget (select_mode_cols "Temporary")).lookup "Debt" = some 0 := by
  have hf := compute_totals_mode_rollup exBudget "Temporary" "Food" (by decide)
  have hd := compute_totals_mode_rollup exBudget "Temporary" "Debt" (by decide)
  have hfind : exBudget.find? (fun r => r.category == "Food") =
      some ⟨"Food", VStr "$1,200.00", VNum 100, VStr "34.56", VNum 0,
            VNum 0, VNum 0, VNum 0, VNum 0, VStr ""⟩ := by
    simp [exBudget, List.find?]
  have hnone : exBudget.find? (fun r => r.category == "Debt") = none := by
    simp [exBudget, List.find?]
  rw [hfind] at hf
  rw [hnone] at hd
  refine ⟨?_, hd⟩
  rw [hf]
  have ha := to_float_VStr_eq "$1,200.00" (false, "1200".data, "00".data, false, []) (by decide)
  have hb := to_float_VStr_eq "34.56" (false, "34".data, "56".data, false, []) (by decide)
  have h0 : dts ([] : List Char) = 0 := by decide
  have h1 : dts "1200".data = 1200 := by decide
  have h2 : dts "00".data = 0 := by decide
  have h3 : dts "34".data = 34 := by decide
  have h4 : dts "56".data = 56 := by decide
  have h5 : ("00".data).length = 2 := by decide
  have h6 : ("56".data).length = 2 := by decide
  have hnum : ∀ q : ℚ, to_float (VNum q) = q := fun q => rfl
  simp [select_mode_cols, temp_cols, BudgetRow.getCell, ha, hb, hnum, synRat,
    h0, h1, h2, h3, h4, h5, h6]
  norm_num

/-- C3: for every budget table and column selection, the dashboard's
living-expenses total equals the sum of all category totals minus the tithe,
rental-reserve and savings totals.  Amounts are modelled as exact rationals,
so the identity is exact — the floating-point evaluation of the program can
drift from it by at most rounding epsilon. -/
theorem living_expenses_partition (df : List BudgetRow) (cols : List String) :
    living_total (compute_totals df cols) =
      totals_sum (compute_totals df cols) - tithe_total (compute_totals df cols) -
        rental_total (compute_totals df cols) - savings_total (compute_totals df cols) := by
  simp [compute_totals, CATEGORIES_ORDERED, living_total, totals_sum, tithe_total,
    rental_total, savings_total, List.lookup, List.filter]

/-- C4: seeding an empty budget table (header row only) produces exactly 10
data rows, one per fixed category in canonical order, with all eight check
columns zero; a table that already has a data row is left unchanged (no
write), and seeding twice equals seeding once. -/
theorem budget_seeding (header : List Value) :
    seed_budgets [header] = header :: budget_seed_rows ∧
    budget_seed_rows.length = 10 ∧
    budget_seed_rows.map (fun r => r.head?.getD VNone) = CATEGORIES_ORDERED.map VStr ∧
    budget_seed_rows.map (fun r => (r.drop 1).take 8) =
      List.replicate 10 (List.replicate 8 (VNum 0)) ∧
    (∀ (v0 r : List Value) (rest : List (List Value)),
      seed_budgets (v0 :: r :: rest) = v0 :: r :: rest) ∧
    (∀ vals, seed_budgets (seed_budgets vals) = seed_budgets vals) := by
  refine ⟨?_, rfl, rfl, rfl, ?_, ?_⟩
  · simp [seed_budgets, updateRange]
  · intro v0 r rest
    simp [seed_budgets]
  · intro vals
    by_cases h : vals.length ≤ 1
    · have hsl : budget_seed_rows.length = 10 := rfl
      have hlen : ¬ (updateRange vals 1 budget_seed_rows).length ≤ 1 := by
        simp [updateRange, hsl]
        omega
      simp [seed_budgets, h, hlen]
    · simp [seed_budgets, h]

/-- C5: the transaction filter keeps exactly the rows whose parsed date lies
in the inclusive range (each bound enforced only when present) and whose
category matches the filter when one is given; a row whose date cannot be
parsed fails every bound check, so it is dropped whenever a bound is present.
On the specification's example — transactions dated 2024-01-05, 2024-01-20,
2024-02-01 and the range [2024-01-01, 2024-01-31] — exactly the first two
remain. -/
theorem transaction_filtering :
    (∀ (rows : List Txn) (s e : Option ℕ) (c : String),
      filter_txns rows s e c =
        rows.filter (fun t => matchesRange s e t && matchesCategory c t)) ∧
    filter_txns exTxns (some 20240101) (some 20240131) "All" = [exTxn1, exTxn2] := by
  constructor
  · intro rows s e c
    by_cases hc : c = "All"
    · subst hc
      have hif : (("All" : String) != "All") = false := by decide
      cases s <;> cases e <;>
        simp only [filter_txns, hif, Bool.false_eq_true, if_false, List.filter_filter] <;>
        first
        | (refine (List.filter_eq_self.2 ?_).symm
           intro t ht
           rcases hd : parseDate t.date with _ | d <;>
             simp [matchesRange, matchesCategory, hd])
        | (apply List.filter_congr
           intro t ht
           rcases hd : parseDate t.date with _ | d <;>
             simp [matchesRange, matchesCategory, hd, Bool.and_comm, Bool.and_left_comm,
               Bool.and_assoc])
    · have hcb : (c == "All") = false := beq_eq_false_iff_ne.2 hc
      have hif : (c != "All") = true := by simp [bne, hcb]
      cases s <;> cases e <;>
        simp only [filter_txns, hif, if_true, List.filter_filter] <;>
        · apply List.filter_congr
          intro t ht
          rcases hd : parseDate t.date with _ | d <;>
            simp [matchesRange, matchesCategory, hd, hcb, Bool.and_comm, Bool.and_left_comm,
              Bool.and_assoc]
  · decide

/-- C6: `to_float` is total on the embedded inputs — it always returns a
value — and a value-parse failure (the try body yielding nothing) is
recovered locally by substituting zero, never propagated. -/
theorem to_float_totality :
    (∀ x : Value, ∃ q : ℚ, to_float x = q) ∧
    (∀ x : Value, to_float_core x = none → to_float x = 0) :=
  ⟨fun x => ⟨to_float x, rfl⟩, fun x h => by simp [to_float, h]⟩

/-- Witness for C6: the unparseable cell "abc" and the None cell both fail
the try body and are substituted by zero. -/
theorem to_float_totality_witness :
    to_float (VStr "abc") = 0 ∧ to_float VNone = 0 :=
  ⟨to_float_totality.2 (VStr "abc") (by decide),
   to_float_totality.2 VNone (by decide)⟩

/-- C7, evaluated at the failing input: the ledger view's category
aggregation (app.py line 212) runs on the raw text cells of the Amount
column, so pandas reduces the group with string concatenation — two Food
transactions with amounts "12.5" and "3" produce the cell text "12.53" —
while the dashboard view's aggregation (app.py lines 291-292), which
normalizes first, yields the arithmetic sum 15.5 that the claim requires of
both places. -/
theorem ledger_groupby_concatenates :
    ledger_cat_total exTxns7 "Food" = "12.53" ∧
    dashboard_cat_total exTxns7 "Food" = 15.5 ∧
    to_float (VStr "12.5") + to_float (VStr "3") = 15.5 := by
  have ha := to_float_VStr_eq "12.5" (false, "12".data, "5".data, false, []) (by decide)
  have hb := to_float_VStr_eq "3" (false, "3".data, [], false, []) (by decide)
  have h0 : dts ([] : List Char) = 0 := by decide
  have h1 : dts "12".data = 12 := by decide
  have h2 : dts "5".data = 5 := by decide
  have h3 : dts "3".data = 3 := by decide
  have h4 : ("5".data).length = 1 := by decide
  refine ⟨by decide, ?_, ?_⟩
  · simp [dashboard_cat_total, exTxns7, List.filter, ha, hb, synRat, h0, h1, h2, h3, h4]
    norm_num
  · rw [ha, hb]
    simp [synRat, h0, h1, h2, h3, h4]
    norm_num

/-- C8: the verse position `index % 5` always lies in [0, 4] — including for
stored values that are unparseable (defaulted to 0), too large ("7"), or
negative ("-3") — so indexing the scripture list never goes out of bounds;
and the value stored by a "New verse" action, a draw from randint(0, 4), lies
in [0, 4]. -/
theorem verse_index_safety (raw : Option String) (draw : ℕ)
    (hdraw : draw ≤ SCRIPTURE.length - 1) :
    0 ≤ verse_pos raw ∧ verse_pos raw < SCRIPTURE.length ∧
    (SCRIPTURE.get? (verse_pos raw).toNat).isSome ∧
    verse_next_index draw < SCRIPTURE.length ∧
    verse_pos (some "banana") = 0 ∧ verse_pos (some "7") = 2 ∧ verse_pos (some "-3") = 2 := by
  have h0 : 0 ≤ verse_pos raw := Int.emod_nonneg _ (by decide)
  have h1 : verse_pos raw < SCRIPTURE.length := Int.emod_lt_of_pos _ (by decide)
  have hlen : SCRIPTURE.length = 5 := rfl
  have htn : (verse_pos raw).toNat < SCRIPTURE.length := by omega
  have h7 : pyFloatChars "7".data = some (7 : ℚ) := by
    have hs : scanFloat (stripWS "7".data) = some (false, "7".data, [], false, []) := by decide
    have hd7 : dts "7".data = 7 := by decide
    have hd0 : dts ([] : List Char) = 0 := by decide
    simp only [pyFloatChars, hs, Option.map_some']
    simp [synRat, hd7, hd0]
  have hm : pyFloatChars "-3".data = some (-3 : ℚ) := by
    have hs : scanFloat (stripWS "-3".data) = some (true, "3".data, [], false, []) := by decide
    have hd3 : dts "3".data = 3 := by decide
    have hd0 : dts ([] : List Char) = 0 := by decide
    simp only [pyFloatChars, hs, Option.map_some']
    simp [synRat, hd3, hd0]
  refine ⟨h0, h1, ?_, ?_, by decide, ?_, ?_⟩
  · rw [List.get?_eq_get htn]
    rfl
  · simp only [verse_next_index]
    omega
  · simp [verse_pos, parse_verse_index, h7]
    decide
  · simp [verse_pos, parse_verse_index, hm]
    decide

/-- Witness for C8, at the missing-setting input and the draw 4 (the last
zero-based position of the five-element list). -/
theorem verse_index_safety_witness :
    0 ≤ verse_pos none ∧ verse_pos none < SCRIPTURE.length ∧
    (SCRIPTURE.get? (verse_pos none).toNat).isSome ∧
    verse_next_index 4 < SCRIPTURE.length ∧
    verse_pos (some "banana") = 0 ∧ verse_pos (some "7") = 2 ∧ verse_pos (some "-3") = 2 :=
  verse_index_safety none 4 (by decide)

/-- C9: `init_sheets` works over three tables named Budgets, Daily_Spending
and Dashboard_Data whose header rows are exactly the enumerated column
lists; a table is created holding exactly its header row when absent, a
pre-existing table (with whatever extra rows) is returned unchanged, and on
first creation the settings table is seeded with the fixed default pairs,
including Mode = "Temporary" and Verse_Index = 0. -/
theorem init_sheets_schema :
    budget_headers = ["Category", "Check1_Temp", "Check2_Temp", "Check3_Temp", "Check4_Temp",
        "Check1_Post", "Check2_Post", "Check3_Post", "Check4_Post", "Monthly_Target"].map VStr ∧
    daily_headers = ["Date", "Category", "Amount", "Memo"].map VStr ∧
    dash_headers = ["Key", "Value"].map VStr ∧
    (∀ (sh : List (String × List (List Value))) (name : String) (hdr : List Value)
        (t : List (List Value)),
      sh.lookup name = some t → open_or_create_worksheet sh name hdr = (t, sh)) ∧
    (∀ (sh : List (String × List (List Value))) (name : String) (hdr : List Value),
      sh.lookup name = none → (open_or_create_worksheet sh name hdr).1 = [hdr]) ∧
    init_sheets [] = (budget_headers :: budget_seed_rows, [daily_headers],
      dash_headers :: dash_seed_rows) ∧
    [VStr "Mode", VStr "Temporary"] ∈ dash_seed_rows ∧
    [VStr "Verse_Index", VNum 0] ∈ dash_seed_rows := by
  refine ⟨rfl, rfl, rfl, ?_, ?_, ?_, by decide, by decide⟩
  · intro sh name hdr t h
    simp [open_or_create_worksheet, h]
  · intro sh name hdr h
    simp [open_or_create_worksheet, h]
  · rfl

/-- Witness for C9: a spreadsheet already holding a Budgets table with extra
rows is returned unchanged, and an absent table is created with exactly its
header row. -/
theorem init_sheets_schema_witness :
    open_or_create_worksheet [("Budgets", exTable)] "Budgets" budget_headers =
      (exTable, [("Budgets", exTable)]) ∧
    (open_or_create_worksheet [] "Daily_Spending" daily_headers).1 = [daily_headers] :=
  ⟨init_sheets_schema.2.2.2.1 _ _ _ _ rfl,
   init_sheets_schema.2.2.2.2.1 _ _ _ rfl⟩

/-- C10: whatever the budget table holds, the mapping returned by
`compute_totals` has as key list exactly the 10 fixed categories in
canonical order; a row whose category is not a fixed label is ignored
entirely, and a row added after an existing row of the same category
contributes nothing (only the first matching row is read). -/
theorem compute_totals_key_invariants :
    (∀ (df : List BudgetRow) (cols : List String),
      (compute_totals df cols).map Prod.fst = CATEGORIES_ORDERED) ∧
    (∀ (df₁ df₂ : List BudgetRow) (r : BudgetRow) (cols : List String),
      r.category ∉ CATEGORIES_ORDERED →
      compute_totals (df₁ ++ r :: df₂) cols = compute_totals (df₁ ++ df₂) cols) ∧
    (∀ (df : List BudgetRow) (r : BudgetRow) (cols : List String),
      (∃ r' ∈ df, r'.category = r.category) →
      compute_totals (df ++ [r]) cols = compute_totals df cols) := by
  refine ⟨?_, ?_, ?_⟩
  · intro df cols
    simp [compute_totals, List.map_map, Function.comp_def]
  · intro df₁ df₂ r cols h
    unfold compute_totals
    apply List.map_congr_left
    intro cat hcat
    have hne : r.category ≠ cat := fun he => h (he ▸ hcat)
    rw [cat_total_skip_row _ _ _ _ _ hne]
  · intro df r cols h
    unfold compute_totals
    apply List.map_congr_left
    intro cat _
    rw [cat_total_append_dup _ _ _ _ h]

/-- Witness for C10: a "Pets" row is ignored entirely, and a duplicate Food
row appended after the existing one changes nothing. -/
theorem compute_totals_key_invariants_witness :
    compute_totals ([] ++ exOtherRow :: []) temp_cols = compute_totals ([] ++ []) temp_cols ∧
    compute_totals (exBudget ++ [exDupRow]) temp_cols = compute_totals exBudget temp_cols :=
  ⟨compute_totals_key_invariants.2.1 [] [] exOtherRow temp_cols (by decide),
   compute_totals_key_invariants.2.2 exBudget exDupRow temp_cols
     ⟨⟨"Food", VStr "$1,200.00", VNum 100, VStr "34.56", VNum 0,
       VNum 0, VNum 0, VNum 0, VNum 0, VStr ""⟩, by simp [exBudget], rfl⟩⟩

end Stewardship
